import Mathlib

/-!
Verification of the job/event core of the WooCommerce-Tool backend
(`woo_be_api/app/core/events.py`, `app/core/v2/rate_limit.py`, `app/core/utils.py`,
`app/api/v1/sse.py`, `app/api/feeds.py`, `app/api/v2/desc_builder.py`).

The Python source is shallowly embedded: Redis hashes become an optional
structured record, Redis Streams become a list of entries with an auto-id
counter (Redis guarantees auto-generated stream ids are strictly increasing
per stream), and CPython float arithmetic for the percent computation is
modelled by exact round-to-nearest-even binary64 rounding on rationals.
-/

namespace WooBE

/-! ### Data model (events.py: the `job:{id}:state` hash, parsed by get_job_state) -/

/-- The `progress` sub-dict merged by `JobEventEmitter.emit_progress`. -/
structure Progress where
  done : Nat
  total : Nat
  percent : Nat
deriving DecidableEq, Repr

/-- The `metrics` sub-dict merged by `JobEventEmitter.emit_progress`. -/
structure Metrics where
  success : Nat
  failed : Nat
  retried : Nat
  skipped : Nat
deriving DecidableEq, Repr

/-- The parsed `job:{job_id}:state` Redis hash.  Fields that a given writer does
not set are `none` (absent hash keys).  `params` and `current` are opaque
serialized blobs.  `client_session` and `job_token` are read by the API layer
(`feeds.py`, `sse.py`) even though the tracked `create_job` never writes them. -/
structure JobState where
  job_id : String
  status : String
  store_id : Option String
  job_type : Option String
  params : Option String
  client_session : Option String
  job_token : Option String
  progress : Option Progress
  metrics : Option Metrics
  current : Option String
  created_at : Option String
  started_at : Option String
  updated_at : Option String
deriving DecidableEq, Repr

/-- Payload of one Redis Streams entry written by `JobEventEmitter`
(the serialized `data` JSON of a status / progress / log event). -/
inductive EventData where
  | status (status : String) (total : Option Nat)
  | progress (done total percent success failed retried skipped : Nat) (current : String)
  | log (level msg : String) (product_id : Option Nat)
deriving DecidableEq, Repr

/-- One entry of the `job:{job_id}:events` Redis stream: the auto-generated id
and the event fields. -/
structure StreamEntry where
  offset : Nat
  data : EventData
deriving DecidableEq, Repr

/-- All Redis keys belonging to one job: the state hash (with its TTL), the
event stream (with the next auto-id Redis would assign, always positive),
and the `job:{id}:cancel` flag. -/
structure JobRecord where
  state : Option JobState
  stateTtl : Option Nat
  events : List StreamEntry
  nextOffset : Nat
  cancelFlag : Bool
deriving DecidableEq, Repr

/-- A job's keys before anything was written (Redis has no data for the id). -/
def emptyJobRecord : JobRecord :=
  { state := none, stateTtl := none, events := [], nextOffset := 1, cancelFlag := false }

/-- Redis `XADD stream * field value ...`: append with a fresh auto-generated id.
Redis guarantees auto ids strictly increase within one stream; the model keeps
the next id in `nextOffset`. -/
def xadd (rec : JobRecord) (d : EventData) : JobRecord :=
  { rec with
      events := rec.events ++ [⟨rec.nextOffset, d⟩],
      nextOffset := rec.nextOffset + 1 }

/-! ### Binary64 model of the CPython float arithmetic in `emit_progress`

`percent = int((done / total * 100)) if total > 0 else 0` evaluates `done / total`
as a correctly rounded IEEE-754 double, multiplies by 100 with correct rounding,
and truncates.  The helpers below round a positive rational to the nearest
binary64 value (round to nearest, ties to even), for values in the normal range
(overflow and subnormals do not occur for the inputs of interest). -/

/-- Count how many doublings of `a` are needed until `2^52 * b ≤ a` (fuelled). -/
def scaleUpCount : Nat → Nat → Nat → Nat
  | 0, _, _ => 0
  | fuel + 1, a, b => if a < 2 ^ 52 * b then scaleUpCount fuel (2 * a) b + 1 else 0

/-- Count how many doublings of `b` are needed until `a < 2^53 * b` (fuelled). -/
def scaleDownCount : Nat → Nat → Nat → Nat
  | 0, _, _ => 0
  | fuel + 1, a, b => if 2 ^ 53 * b ≤ a then scaleDownCount fuel a (2 * b) + 1 else 0

/-- Round the rational `num / den` to the nearest integer, ties to even. -/
def roundSigNE (num den : Nat) : Nat :=
  let q := num / den
  let r := num % den
  if 2 * r < den then q
  else if den < 2 * r then q + 1
  else if q % 2 = 0 then q else q + 1

/-- Round the positive rational `a / b` to the nearest binary64 value.
Returns `(sig, u, d)` encoding the value `sig * 2^d / 2^u`: the fraction is
scaled so that the significand lies in `[2^52, 2^53)` and then rounded to
nearest, ties to even. -/
def fp64parts (a b : Nat) : Nat × Nat × Nat :=
  if a = 0 then (0, 0, 0)
  else
    let u := scaleUpCount 1200 a b
    let a2 := a * 2 ^ u
    let d := scaleDownCount 1200 a2 b
    (roundSigNE a2 (b * 2 ^ d), u, d)

/-- The binary64 value nearest to `a / b`, as an exact numerator/denominator pair. -/
def fp64val (a b : Nat) : Nat × Nat :=
  let p := fp64parts a b
  (p.1 * 2 ^ p.2.2, 2 ^ p.2.1)

/-- CPython evaluation of `int((done / total * 100))` for `total > 0`:
`done / total` is the correctly rounded double, the product with `100` is again
correctly rounded, and `int` truncates (the value is non-negative here). -/
def pyPercent (done total : Nat) : Nat :=
  let q1 := fp64val done total
  let q2 := fp64val (q1.1 * 100) q1.2
  q2.1 / q2.2

/-- The percent computed by `emit_progress`:
`int((done / total * 100)) if total > 0 else 0`. -/
def emitProgressPercent (done total : Nat) : Nat :=
  if 0 < total then pyPercent done total else 0

/-- Stated from the spec for comparison: `floor(done / total * 100)` in exact
arithmetic, with `total == 0` defined as `0`. -/
def specPercentFloor (done total : Nat) : Nat :=
  if 0 < total then done * 100 / total else 0

/-! ### JobEventEmitter / JobStateManager operations (events.py) -/

/-- The dict passed to `JobEventEmitter._update_state`: keys present in the
update overwrite the stored hash fields, absent keys leave them unchanged. -/
structure StateUpdates where
  status : Option String
  progress : Option Progress
  metrics : Option Metrics
  current : Option String
deriving DecidableEq, Repr

/-- `JobEventEmitter._update_state`: read the state hash; if it is empty start
from the default `{job_id, status: "queued", started_at: now}`; apply the
updates, stamp `updated_at`, and write the hash back.  `HSET` does not touch
the key's TTL (and a freshly created key has none). -/
def updateStateHash (jobId now : String) (cur : Option JobState) (u : StateUpdates) :
    JobState :=
  let base : JobState :=
    match cur with
    | some st => st
    | none =>
      { job_id := jobId, status := "queued", store_id := none, job_type := none,
        params := none, client_session := none, job_token := none, progress := none,
        metrics := none, current := none, created_at := none, started_at := some now,
        updated_at := none }
  { base with
      status := (u.status).getD base.status,
      progress := match u.progress with | some p => some p | none => base.progress,
      metrics := match u.metrics with | some m => some m | none => base.metrics,
      current := match u.current with | some c => some c | none => base.current,
      updated_at := some now }

/-- `_update_state` lifted to the whole job record (the stream is untouched,
and so is the state TTL, since `HSET` never sets one). -/
def update_state (rec : JobRecord) (jobId now : String) (u : StateUpdates) : JobRecord :=
  { rec with state := some (updateStateHash jobId now rec.state u) }

/-- `JobEventEmitter.emit_status`: `XADD` a status event, then merge
`{"status": status}` into the state hash. -/
def emit_status (rec : JobRecord) (jobId : String) (status : String)
    (total : Option Nat) (now : String) : JobRecord :=
  let rec1 := xadd rec (.status status total)
  update_state rec1 jobId now
    { status := some status, progress := none, metrics := none, current := none }

/-- `JobEventEmitter.emit_progress`: compute the percent, `XADD` a progress
event, then merge progress / metrics / current into the state hash.
`current or {}` substitutes the empty dict when no current item is given. -/
def emit_progress (rec : JobRecord) (jobId : String)
    (done total success failed retried skipped : Nat) (current : Option String)
    (now : String) : JobRecord :=
  let percent := emitProgressPercent done total
  let cur := current.getD "{}"
  let rec1 := xadd rec (.progress done total percent success failed retried skipped cur)
  update_state rec1 jobId now
    { status := none,
      progress := some { done := done, total := total, percent := percent },
      metrics := some { success := success, failed := failed, retried := retried,
                        skipped := skipped },
      current := some cur }

/-- `JobEventEmitter.emit_log`: `XADD` only, the state hash is not merged. -/
def emit_log (rec : JobRecord) (level msg : String) (product_id : Option Nat) :
    JobRecord :=
  xadd rec (.log level msg product_id)

/-- `JobEventEmitter.set_metrics`. -/
def set_metrics (rec : JobRecord) (jobId : String) (m : Metrics) (now : String) :
    JobRecord :=
  update_state rec jobId now
    { status := none, progress := none, metrics := some m, current := none }

/-- `JobEventEmitter.set_current`. -/
def set_current (rec : JobRecord) (jobId : String) (c : String) (now : String) :
    JobRecord :=
  update_state rec jobId now
    { status := none, progress := none, metrics := none, current := some c }

/-- `JobStateManager.create_job`: write the initial hash
`{job_id, store_id, job_type, status: "queued", params, created_at, updated_at}`
with a 24h TTL and return the job id (a fresh `uuid4`, supplied here as a
parameter).  The tracked source returns only the id: no `job_token` and no
`client_session` is generated or stored. -/
def create_job (rec : JobRecord) (store_id job_type params : String)
    (now job_id : String) : JobRecord × String :=
  ({ rec with
      state := some
        { job_id := job_id, status := "queued", store_id := some store_id,
          job_type := some job_type, params := some params,
          client_session := none, job_token := none, progress := none,
          metrics := none, current := none, created_at := some now,
          started_at := none, updated_at := some now },
      stateTtl := some 86400 },
   job_id)

/-- `JobStateManager.get_job_state` (JSON round-trips are identities here). -/
def get_job_state (rec : JobRecord) : Option JobState := rec.state

/-- `JobStateManager.cancel_job`: if the state hash exists set
`status = "cancelled"`, stamp `updated_at`, set the cancel flag and return
`true`; otherwise return `false` without touching anything. -/
def cancel_job (rec : JobRecord) (now : String) : JobRecord × Bool :=
  match rec.state with
  | some st =>
    ({ rec with
        state := some { st with status := "cancelled", updated_at := some now },
        cancelFlag := true },
     true)
  | none => (rec, false)

/-- `JobStateManager.is_cancelled`: O(1) probe of the cancel flag key. -/
def is_cancelled (rec : JobRecord) : Bool := rec.cancelFlag

/-! ### Sequences of core operations on one job -/

/-- One core operation on a job, as invoked by the API layer and handlers. -/
inductive JobOp where
  | createJob (store_id job_type params now job_id : String)
  | emitStatus (status : String) (total : Option Nat) (now : String)
  | emitProgress (done total success failed retried skipped : Nat)
      (current : Option String) (now : String)
  | emitLog (level msg : String) (product_id : Option Nat)
  | setMetrics (m : Metrics) (now : String)
  | setCurrent (c : String) (now : String)
  | cancelJob (now : String)
deriving DecidableEq, Repr

/-- Apply one operation to the job's Redis keys. -/
def applyOp (jobId : String) (rec : JobRecord) : JobOp → JobRecord
  | .createJob sid jt params now jid => (create_job rec sid jt params now jid).1
  | .emitStatus s total now => emit_status rec jobId s total now
  | .emitProgress d t su f r sk cur now => emit_progress rec jobId d t su f r sk cur now
  | .emitLog level msg pid => emit_log rec level msg pid
  | .setMetrics m now => set_metrics rec jobId m now
  | .setCurrent c now => set_current rec jobId c now
  | .cancelJob now => (cancel_job rec now).1

/-- Run a sequence of operations from empty Redis keys. -/
def runOps (jobId : String) (ops : List JobOp) : JobRecord :=
  ops.foldl (applyOp jobId) emptyJobRecord

/-! ### stream_job_events (events.py): tailing the event stream -/

/-- Entries strictly ordered by their stream id. -/
def OffsetsSorted (l : List StreamEntry) : Prop :=
  l.Pairwise (fun a b => a.offset < b.offset)

instance (l : List StreamEntry) : Decidable (OffsetsSorted l) := by
  unfold OffsetsSorted; infer_instance

/-- The invariant the stream model maintains: entries strictly ordered, all
below the next auto id. -/
def RecordInv (rec : JobRecord) : Prop :=
  OffsetsSorted rec.events ∧ ∀ e ∈ rec.events, e.offset < rec.nextOffset

instance (rec : JobRecord) : Decidable (RecordInv rec) := by
  unfold RecordInv; infer_instance

/-- One `XREAD ... COUNT 10 STREAMS key last`: the first ten entries whose id
is greater than `last`. -/
def xreadBatch (evs : List StreamEntry) (last : Nat) : List StreamEntry :=
  (evs.filter (fun e => last < e.offset)).take 10

/-- The read loop of `stream_job_events` over a static stream: repeatedly
`XREAD` from the last delivered id, yielding batches until one comes back
empty (at which point the real loop emits a heartbeat).  `fuel` bounds the
number of polls. -/
def xreadDrain : Nat → List StreamEntry → Nat → List StreamEntry
  | 0, _, _ => []
  | fuel + 1, evs, last =>
    match xreadBatch evs last with
    | [] => []
    | b :: bs =>
      (b :: bs) ++ xreadDrain fuel evs ((b :: bs).getLast (List.cons_ne_nil b bs)).offset

/-- The id resolved for `last_id = "$"`: the greatest id currently in the
stream, `0` when the stream is empty (every real id is positive). -/
def lastStreamId (rec : JobRecord) : Nat :=
  (rec.events.map StreamEntry.offset).foldr max 0

/-! ### The SSE connect handshake (api/v1/sse.py `_stream_events_impl`) -/

/-- A JSON scalar appearing in a frame payload. -/
inductive JVal where
  | str (s : String)
  | int (n : Nat)
deriving DecidableEq, Repr

/-- One frame yielded by `event_generator`. -/
inductive Frame where
  | connected (job_id : String)
  | snapshot (data : List (String × JVal))
  | data (id : Option Nat) (event : String) (payload : EventData)
  | heartbeat (comment : String)
deriving DecidableEq, Repr

/-- The event name of a stream entry, as sent in the SSE `event:` line. -/
def eventKind : EventData → String
  | .status _ _ => "status"
  | .progress _ _ _ _ _ _ _ _ => "progress"
  | .log _ _ _ => "log"

/-- The `snapshot_data` dict built in `event_generator`: status plus the
`done` / `total` of the progress projection (`0` when no progress dict is
stored).  Note the dict has exactly these three keys. -/
def snapshotData (st : JobState) : List (String × JVal) :=
  [("status", JVal.str st.status),
   ("done", JVal.int (match st.progress with | some p => p.done | none => 0)),
   ("total", JVal.int (match st.progress with | some p => p.total | none => 0))]

/-- The frames produced by `event_generator` from connect up to and including
the first poll of the stream: the `connected` frame, the `snapshot` frame when
a state hash exists, then either the first batch of events (when the resume
point has newer entries) or the first heartbeat.  `last_event_id = none`
stands for the absent `Last-Event-ID` header, resolved to `"$"`. -/
def connectFrames (jobId : String) (rec : JobRecord) (lastEventId : Option Nat) :
    List Frame :=
  let startId := match lastEventId with | some i => i | none => lastStreamId rec
  let snapshotPart :=
    match get_job_state rec with
    | some st => [Frame.snapshot (snapshotData st)]
    | none => []
  let firstPoll :=
    match xreadBatch rec.events startId with
    | [] => [Frame.heartbeat "ping"]
    | b :: bs => (b :: bs).map (fun e => Frame.data (some e.offset) (eventKind e.data) e.data)
  Frame.connected jobId :: snapshotPart ++ firstPoll

/-! ### Access gates

`_assert_job_access` (api/feeds.py) and the token gates of
`_stream_events_impl` (api/v1/sse.py) and `download_patch_zip`
(api/v2/desc_builder.py). -/

/-- Outcome of `_assert_job_access`: fall-through, or the HTTPException it
raises. -/
inductive AccessResult where
  | ok
  | notFound
  | unauthorized
  | forbidden
deriving DecidableEq, Repr

/-- `_assert_job_access(job_id, store_id, effective_session, state_manager)`:
404 when the job state is missing or its `store_id` differs from the path's;
then, when a non-empty `client_session` is stored, 401 when the caller's
session is falsy (absent or empty) and 403 when `secrets.compare_digest`
(constant-time equality) rejects it; jobs without a stored session skip the
session check. -/
def assert_job_access (job_state : Option JobState) (store_id : String)
    (effective_session : Option String) : AccessResult :=
  match job_state with
  | none => .notFound
  | some st =>
    if st.store_id ≠ some store_id then .notFound
    else
      match st.client_session with
      | some stored =>
        if stored = "" then .ok
        else
          match effective_session with
          | none => .unauthorized
          | some e =>
            if e = "" then .unauthorized
            else if e = stored then .ok
            else .forbidden
      | none => .ok

/-- Modelled from the spec: `JobStateManager.verify_job_token` is called by
`sse.py`, `feeds.py` and `desc_builder.py` but is absent from the tracked
`events.py`; per the spec the presented token is compared against the stored
`job_token` in constant time.  Constant-time comparison decides equality, and
a job without a stored token accepts nothing (fail closed). -/
def verify_job_token (job_state : Option JobState) (token : String) : Bool :=
  match job_state with
  | some st =>
    match st.job_token with
    | some stored => stored = token
    | none => false
  | none => false

/-- Outcome of the stream / download token gate. -/
inductive GateResult where
  | allowed
  | notFound
  | forbidden (code : String)
deriving DecidableEq, Repr

/-- The access decision of `_stream_events_impl` (api/v1/sse.py): 404 when the
job is missing or under another store; 403 `missing_job_token` when the token
is falsy; 403 `invalid_job_token` when `verify_job_token` rejects it.  The
optional `X-Store-Key` is then verified opportunistically, but a failure is
swallowed (`except HTTPException: pass`), so the outcome does not depend on
it. -/
def streamEventsGate (job_state : Option JobState) (store_id : String)
    (token : String) (store_key : Option String) (store_key_valid : Bool) :
    GateResult :=
  match job_state with
  | none => .notFound
  | some st =>
    if st.store_id ≠ some store_id then .notFound
    else if token = "" then .forbidden "missing_job_token"
    else if verify_job_token (some st) token = false then .forbidden "invalid_job_token"
    else
      let _ := store_key
      let _ := store_key_valid
      .allowed

/-- The access decision of `download_patch_zip` (api/v2/desc_builder.py),
structurally identical to the SSE gate: 404 on missing job / store mismatch,
403 `missing_job_token`, 403 `invalid_job_token`, and an opportunistic
`X-Store-Key` check whose failure is swallowed. -/
def downloadPatchZipGate (job_state : Option JobState) (store_id : String)
    (token : String) (store_key : Option String) (store_key_valid : Bool) :
    GateResult :=
  match job_state with
  | none => .notFound
  | some st =>
    if st.store_id ≠ some store_id then .notFound
    else if token = "" then .forbidden "missing_job_token"
    else if verify_job_token (some st) token = false then .forbidden "invalid_job_token"
    else
      let _ := store_key
      let _ := store_key_valid
      .allowed

/-! ### RateLimiter (core/v2/rate_limit.py) -/

/-- The upload ceiling: `MAX_CONCURRENT_UPLOADS = 3`. -/
def MAX_CONCURRENT_UPLOADS : Nat := 3

/-- The job ceiling: `MAX_CONCURRENT_JOBS = 2`. -/
def MAX_CONCURRENT_JOBS : Nat := 2

/-- The 429 detail f-string of the upload limiter. -/
def uploadLimitDetail : String :=
  "Maximum " ++ toString MAX_CONCURRENT_UPLOADS ++
    " concurrent uploads per store. Please wait for existing uploads to complete."

/-- The 429 detail f-string of the job limiter. -/
def jobLimitDetail : String :=
  "Maximum " ++ toString MAX_CONCURRENT_JOBS ++
    " concurrent generation jobs per store. Please wait for existing jobs to complete."

/-- One per-(store, resource) Redis counter with its TTL; `count = none` is an
absent key (`GET` returns nil, read as 0). -/
structure CounterState where
  count : Option Int
  ttl : Option Nat
deriving DecidableEq, Repr

/-- `GET` of the counter as the Python `int(current) if current else 0`. -/
def counterValue (c : CounterState) : Int := c.count.getD 0

/-- Result of an acquire: success, or the 429 HTTPException, each with the
counter left behind. -/
inductive AcquireOutcome where
  | ok (after : CounterState)
  | rateLimited (detail : String) (after : CounterState)
deriving DecidableEq, Repr

/-- `acquire_upload_slot` / `acquire_job_slot` share this body: read the
counter and reject at the ceiling; otherwise `INCR` (with a 24h TTL) and, if
the post-increment value overshot the ceiling, `DECR` back (rollback) and
reject. -/
def acquireSlot (limit : Nat) (detail : String) (c : CounterState) : AcquireOutcome :=
  let current_count := counterValue c
  if (limit : Int) ≤ current_count then .rateLimited detail c
  else
    let new_count := counterValue c + 1
    let c1 : CounterState := { count := some new_count, ttl := some 86400 }
    if (limit : Int) < new_count then
      .rateLimited detail { count := some (new_count - 1), ttl := c1.ttl }
    else .ok c1

/-- `release_upload_slot` / `release_job_slot` share this body: `DECR` only
when the key exists and its value is positive. -/
def releaseSlot (c : CounterState) : CounterState :=
  match c.count with
  | some n => if 0 < n then { count := some (n - 1), ttl := c.ttl } else c
  | none => c

/-- `RateLimiter.acquire_upload_slot`. -/
def acquire_upload_slot : CounterState → AcquireOutcome :=
  acquireSlot MAX_CONCURRENT_UPLOADS uploadLimitDetail

/-- `RateLimiter.acquire_job_slot`. -/
def acquire_job_slot : CounterState → AcquireOutcome :=
  acquireSlot MAX_CONCURRENT_JOBS jobLimitDetail

/-- The counter an acquire leaves behind, whether it succeeded or raised. -/
def acquireAfter : AcquireOutcome → CounterState
  | .ok c => c
  | .rateLimited _ c => c

/-- A client action against one counter. -/
inductive SlotOp where
  | acquire
  | release
deriving DecidableEq, Repr

/-- Run a sequence of acquires / releases against one counter. -/
def runSlots (limit : Nat) (detail : String) (c : CounterState) :
    List SlotOp → CounterState
  | [] => c
  | .acquire :: rest => runSlots limit detail (acquireAfter (acquireSlot limit detail c)) rest
  | .release :: rest => runSlots limit detail (releaseSlot c) rest

/-- The counter key starts absent. -/
def emptyCounter : CounterState := { count := none, ttl := none }

/-! ### retry_with_backoff_async (core/utils.py) -/

/-- What one invocation of `func()` does: return the `(success, result,
status_code)` tuple, or raise. -/
inductive CallResult where
  | ret (success : Bool) (result : String) (statusCode : Option Int)
  | exn (msg : String)
deriving DecidableEq, Repr

/-- The Python guard `if status_code and status_code not in retry_on_status`:
`None` and `0` are falsy, so only a nonzero status outside the retry list is
non-retryable. -/
def nonRetryable (retryOn : List Int) (sc : Option Int) : Bool :=
  match sc with
  | some c => decide (c ≠ 0) && !(retryOn.contains c)
  | none => false

/-- The default `retry_on_status` list. -/
def defaultRetryOnStatus : List Int := [504, 500, 502, 503, 429]

/-- What `retry_with_backoff_async` returns, plus the sleeps it performed
(in order, in seconds; delays tracked exactly over `ℚ`). -/
structure RetryResult where
  success : Bool
  result : String
  statusCode : Option Int
  sleeps : List ℚ
deriving DecidableEq, Repr

/-- The body of the `for attempt in range(max_retries + 1)` loop, recursing on
the retries remaining.  With none remaining (the last iteration), a failure is
returned as-is whether or not it is retryable; otherwise a retryable failure
or an exception sleeps `delay`, multiplies `delay` by the backoff factor, and
retries.  An exception stores `str(e)` as the result with status `None`. -/
def retryLoop (func : Nat → CallResult) (retryOn : List Int) (factor : ℚ) :
    Nat → Nat → ℚ → List ℚ → RetryResult
  | 0, attempt, _, sleeps =>
    match func attempt with
    | .ret true r sc => ⟨true, r, sc, sleeps⟩
    | .ret false r sc => ⟨false, r, sc, sleeps⟩
    | .exn m => ⟨false, m, none, sleeps⟩
  | remaining + 1, attempt, delay, sleeps =>
    match func attempt with
    | .ret true r sc => ⟨true, r, sc, sleeps⟩
    | .ret false r sc =>
      if nonRetryable retryOn sc then ⟨false, r, sc, sleeps⟩
      else retryLoop func retryOn factor remaining (attempt + 1) (delay * factor)
        (sleeps ++ [delay])
    | .exn _ =>
      retryLoop func retryOn factor remaining (attempt + 1) (delay * factor)
        (sleeps ++ [delay])

/-- `retry_with_backoff_async(func, max_retries, initial_delay, backoff_factor,
retry_on_status)`, with the sequence of invocation outcomes given by `func`
indexed by attempt number. -/
def retry_with_backoff_async (func : Nat → CallResult) (max_retries : Nat)
    (initial_delay backoff_factor : ℚ) (retry_on_status : List Int) : RetryResult :=
  retryLoop func retry_on_status backoff_factor max_retries 0 initial_delay []


/-! ### Helper lemmas: the event-stream invariant -/

lemma recordInv_xadd {rec : JobRecord} (d : EventData) (h : RecordInv rec) :
    RecordInv (xadd rec d) := by
  obtain ⟨hs, hlt⟩ := h
  constructor
  · unfold OffsetsSorted xadd at *
    rw [List.pairwise_append]
    refine ⟨hs, List.pairwise_singleton _ _, ?_⟩
    intro a ha b hb
    simp at hb
    subst hb
    exact hlt a ha
  · intro e he
    unfold xadd at he
    simp at he
    rcases he with he | he
    · exact Nat.lt_succ_of_lt (hlt e he)
    · subst he; exact Nat.lt_succ_self _

lemma recordInv_update_state {rec : JobRecord} (jobId now : String) (u : StateUpdates)
    (h : RecordInv rec) : RecordInv (update_state rec jobId now u) := h

lemma recordInv_applyOp {rec : JobRecord} (jobId : String) (op : JobOp)
    (h : RecordInv rec) : RecordInv (applyOp jobId rec op) := by
  cases op with
  | createJob sid jt params now jid => exact h
  | emitStatus s total now =>
    exact recordInv_update_state _ _ _ (recordInv_xadd _ h)
  | emitProgress d t su f r sk cur now =>
    exact recordInv_update_state _ _ _ (recordInv_xadd _ h)
  | emitLog level msg pid => exact recordInv_xadd _ h
  | setMetrics m now => exact recordInv_update_state _ _ _ h
  | setCurrent c now => exact recordInv_update_state _ _ _ h
  | cancelJob now =>
    unfold applyOp cancel_job
    cases rec.state <;> exact h

lemma recordInv_foldl (jobId : String) (ops : List JobOp) :
    ∀ rec : JobRecord, RecordInv rec → RecordInv (ops.foldl (applyOp jobId) rec) := by
  induction ops with
  | nil => intro rec h; exact h
  | cons op rest ih =>
    intro rec h
    exact ih _ (recordInv_applyOp jobId op h)

lemma recordInv_runOps (jobId : String) (ops : List JobOp) :
    RecordInv (runOps jobId ops) :=
  recordInv_foldl jobId ops emptyJobRecord (by decide)

/-! ### Helper lemmas: sorted streams, batched tailing -/

lemma offsetsSorted_filter {l : List StreamEntry} (p : StreamEntry → Bool)
    (hs : OffsetsSorted l) : OffsetsSorted (l.filter p) :=
  List.Pairwise.sublist (List.filter_sublist l) hs

lemma filter_gt_of_getLast_take (l : List StreamEntry) (hs : OffsetsSorted l) :
    ∀ (k : Nat) (b : StreamEntry), (l.take k).getLast? = some b →
      l.filter (fun e => b.offset < e.offset) = l.drop k := by
  induction l with
  | nil => intro k b hb; simp at hb
  | cons x xs ih =>
    intro k b hb
    match k with
    | 0 => simp at hb
    | k + 1 =>
      rw [List.take_succ_cons] at hb
      rw [List.drop_succ_cons]
      have hpc := List.pairwise_cons.mp hs
      by_cases hxs : xs.take k = []
      · rw [hxs, List.getLast?_singleton] at hb
        injection hb with hb
        subst hb
        have hdrop : xs.drop k = xs := by
          rcases Nat.eq_zero_or_pos k with hk | hk
          · rw [hk]; rfl
          · have : xs = [] := by
              by_contra hne
              rcases List.exists_cons_of_ne_nil hne with ⟨y, ys, rfl⟩
              simp [List.take_succ_cons] at hxs
              omega
            rw [this]; simp
        rw [hdrop, List.filter_cons]
        simp only [show decide (x.offset < x.offset) = false by simp, if_false]
        exact List.filter_eq_self.mpr (fun a ha => by
          simpa using hpc.1 a ha)
      · rcases List.exists_cons_of_ne_nil hxs with ⟨y, ys, hy⟩
        rw [hy, List.getLast?_cons_cons, ← hy] at hb
        have hrec := ih hpc.2 k b hb
        have hbmem : b ∈ xs :=
          List.take_subset k xs (List.mem_of_mem_getLast? (by rw [hb]; rfl))
        have hxb : x.offset < b.offset := hpc.1 b hbmem
        rw [List.filter_cons]
        simp only [show decide (b.offset < x.offset) = false by
          simp [Nat.not_lt.mpr (Nat.le_of_lt hxb)], if_false]
        exact hrec

lemma xreadDrain_eq_filter (evs : List StreamEntry) (hs : OffsetsSorted evs) :
    ∀ (fuel last : Nat), (evs.filter (fun e => last < e.offset)).length ≤ fuel →
      xreadDrain fuel evs last = evs.filter (fun e => last < e.offset) := by
  intro fuel
  induction fuel with
  | zero =>
    intro last h
    have hnil : evs.filter (fun e => last < e.offset) = [] :=
      List.length_eq_zero.mp (Nat.le_zero.mp h)
    rw [hnil]; rfl
  | succ fuel ih =>
    intro last h
    unfold xreadDrain
    cases hbatch : xreadBatch evs last with
    | nil =>
      simp only [hbatch]
      have hb' : (evs.filter (fun e => last < e.offset)).take 10 = [] := hbatch
      have hnil : evs.filter (fun e => last < e.offset) = [] := by
        rcases List.take_eq_nil_iff.mp hb' with h10 | hnil
        · exact absurd h10 (by decide)
        · exact hnil
      rw [hnil]
    | cons b bs =>
      simp only [hbatch]
      have hb' : (evs.filter (fun e => last < e.offset)).take 10 = b :: bs := hbatch
      have hFs : OffsetsSorted (evs.filter (fun e => last < e.offset)) :=
        offsetsSorted_filter _ hs
      have hLbatch : (b :: bs).getLast (List.cons_ne_nil b bs) ∈ b :: bs :=
        List.getLast_mem _
      have hLmemF : (b :: bs).getLast (List.cons_ne_nil b bs) ∈
          evs.filter (fun e => last < e.offset) := by
        refine List.take_subset 10 _ ?_
        rw [hb']; exact hLbatch
      have hlastL : last < ((b :: bs).getLast (List.cons_ne_nil b bs)).offset := by
        have := List.of_mem_filter hLmemF
        simpa using this
      have hgl : ((evs.filter (fun e => last < e.offset)).take 10).getLast? =
          some ((b :: bs).getLast (List.cons_ne_nil b bs)) := by
        rw [hb']
        exact List.getLast?_eq_getLast _ (List.cons_ne_nil b bs)
      have hAF := filter_gt_of_getLast_take (evs.filter (fun e => last < e.offset)) hFs
        10 ((b :: bs).getLast (List.cons_ne_nil b bs)) hgl
      have hcomb : evs.filter
            (fun e => ((b :: bs).getLast (List.cons_ne_nil b bs)).offset < e.offset) =
          (evs.filter (fun e => last < e.offset)).filter
            (fun e => ((b :: bs).getLast (List.cons_ne_nil b bs)).offset < e.offset) := by
        rw [List.filter_filter]
        refine List.filter_congr ?_
        intro e _
        by_cases hL : ((b :: bs).getLast (List.cons_ne_nil b bs)).offset < e.offset
        · simp [hL, Nat.lt_trans hlastL hL]
        · simp [hL]
      have hpos : 0 < (evs.filter (fun e => last < e.offset)).length := by
        by_contra hz
        have : evs.filter (fun e => last < e.offset) = [] :=
          List.length_eq_zero.mp (by omega)
        rw [this] at hb'
        simp at hb'
      have hlen : (evs.filter
          (fun e => ((b :: bs).getLast (List.cons_ne_nil b bs)).offset < e.offset)).length
          ≤ fuel := by
        rw [hcomb, hAF]
        have hd := List.length_drop 10 (evs.filter (fun e => last < e.offset))
        omega
      rw [ih _ hlen, hcomb, hAF, ← hb']
      exact List.take_append_drop 10 _


/-! ### Claim theorems -/

/-- Claim C1: the tracked `create_job` does persist a `queued` record carrying
the given tenant (store) id with a 24h retention TTL, but it returns only the
bare `job_id` and stores no `job_token` (and no `client_session`) — the
`(job_id, job_token)` pair the claim (and the callers in `feeds.py` /
`desc_builder.py`) expect does not exist. -/
theorem create_job_queued_record_no_token (rec : JobRecord)
    (store_id job_type params now job_id : String) :
    (create_job rec store_id job_type params now job_id).2 = job_id
    ∧ (create_job rec store_id job_type params now job_id).1.state =
        some { job_id := job_id, status := "queued", store_id := some store_id,
               job_type := some job_type, params := some params,
               client_session := none, job_token := none, progress := none,
               metrics := none, current := none, created_at := some now,
               started_at := none, updated_at := some now }
    ∧ (create_job rec store_id job_type params now job_id).1.stateTtl = some 86400 :=
  ⟨rfl, rfl, rfl⟩

/-- A job driven to status `"done"`: create, then `emit_status("done")`. -/
def c4record : JobRecord :=
  runOps "job-1"
    [JobOp.createJob "store-1" "delete-products" "{}" "t0" "job-1",
     JobOp.emitStatus "done" none "t1"]

/-- Claim C4 counterexample: `cancel_job` on a job whose status is `"done"`
does move it to `"cancelled"` (and returns `true`), contradicting the claim
that terminal statuses are never left. -/
theorem cancel_job_overrides_done_cex :
    (get_job_state c4record).map JobState.status = some "done"
    ∧ ((cancel_job c4record "t2").1.state.map JobState.status) = some "cancelled"
    ∧ (cancel_job c4record "t2").2 = true := by decide

/-- Claim C4 (amended): no forward-only discipline is enforced — `cancel_job`
sets `status = "cancelled"` on any existing job regardless of its current
status (including `"done"` / `"failed"`), returns `false` only for unknown
jobs, and `emit_status` overwrites the status unconditionally with whatever
it is given. -/
theorem cancel_job_unconditional (rec : JobRecord) (st : JobState)
    (jobId s now : String) (total : Option Nat) (h : rec.state = some st) :
    cancel_job rec now =
      ({ rec with
          state := some { st with status := "cancelled", updated_at := some now },
          cancelFlag := true }, true)
    ∧ (∀ rec2 : JobRecord, rec2.state = none → cancel_job rec2 now = (rec2, false))
    ∧ (emit_status rec jobId s total now).state.map JobState.status = some s := by
  refine ⟨?_, ?_, ?_⟩
  · unfold cancel_job; rw [h]
  · intro rec2 h2; unfold cancel_job; rw [h2]
  · cases hst : rec.state <;>
      simp [emit_status, update_state, updateStateHash, xadd, hst]

/-- The state record `create_job` writes for the C4 witness. -/
def c4wState : JobState :=
  { job_id := "job-w", status := "queued", store_id := some "store-w",
    job_type := some "update-prices", params := some "{}",
    client_session := none, job_token := none, progress := none,
    metrics := none, current := none, created_at := some "t0",
    started_at := none, updated_at := some "t0" }

/-- The job record for the C4 witness. -/
def c4wRecord : JobRecord :=
  (create_job emptyJobRecord "store-w" "update-prices" "{}" "t0" "job-w").1

theorem cancel_job_unconditional_witness :
    cancel_job c4wRecord "t1" =
      ({ c4wRecord with
          state := some { c4wState with status := "cancelled", updated_at := some "t1" },
          cancelFlag := true }, true) :=
  (cancel_job_unconditional c4wRecord c4wState "job-w" "running" "t1" none rfl).1

/-- Claim C5: `_assert_job_access` decides in order — missing job or tenant
mismatch is NotFound (never Forbidden); a stored non-empty session qualifier
makes an absent/empty caller session Unauthorized and a mismatched one
Forbidden; a matching session, or a job without a stored session, passes. -/
theorem assert_job_access_decision (st : JobState) (sid : String)
    (eff : Option String) (q e : String) :
    assert_job_access none sid eff = AccessResult.notFound
    ∧ (st.store_id ≠ some sid → assert_job_access (some st) sid eff = .notFound)
    ∧ (st.store_id = some sid → st.client_session = some q → q ≠ "" →
        assert_job_access (some st) sid none = .unauthorized
        ∧ assert_job_access (some st) sid (some "") = .unauthorized)
    ∧ (st.store_id = some sid → st.client_session = some q → q ≠ "" →
        e ≠ "" → e ≠ q → assert_job_access (some st) sid (some e) = .forbidden)
    ∧ (st.store_id = some sid → st.client_session = some q → q ≠ "" →
        assert_job_access (some st) sid (some q) = .ok)
    ∧ (st.store_id = some sid → st.client_session = none →
        assert_job_access (some st) sid eff = .ok) := by
  refine ⟨rfl, ?_, ?_, ?_, ?_, ?_⟩
  · intro h; simp [assert_job_access, h]
  · intro h1 h2 h3
    constructor <;> simp [assert_job_access, h1, h2, h3]
  · intro h1 h2 h3 h4 h5
    simp [assert_job_access, h1, h2, h3, h4, h5]
  · intro h1 h2 h3
    simp [assert_job_access, h1, h2, h3]
  · intro h1 h2
    simp [assert_job_access, h1, h2]

/-- A job state with a stored session qualifier, for the C5 witness. -/
def c5wState : JobState :=
  { job_id := "job-5", status := "running", store_id := some "store-5",
    job_type := some "feed-generation", params := some "{}",
    client_session := some "sess-a", job_token := none, progress := none,
    metrics := none, current := none, created_at := some "t0",
    started_at := none, updated_at := some "t0" }

theorem assert_job_access_decision_witness :
    assert_job_access (some c5wState) "store-5" (some "sess-b") = AccessResult.forbidden :=
  (assert_job_access_decision c5wState "store-5" (some "sess-b") "sess-a" "sess-b").2.2.2.1
    (by decide) (by decide) (by decide) (by decide) (by decide)

/-- Claim C10: `_update_state` on a job whose state hash is absent silently
rebuilds it from the default `{job_id, status: "queued", started_at: now}`:
`emit_status` leaves a record with the new status and `emit_progress` one
whose status is still `"queued"`, in both cases with no `store_id`, no
`job_type`, no `params`, and no retention TTL on the resurrected key. -/
theorem update_state_resurrects (rec : JobRecord) (jobId s now : String)
    (total0 : Option Nat) (done total success failed retried skipped : Nat)
    (cur : Option String) (h : rec.state = none) (ht : rec.stateTtl = none) :
    (emit_status rec jobId s total0 now).state =
      some { job_id := jobId, status := s, store_id := none, job_type := none,
             params := none, client_session := none, job_token := none,
             progress := none, metrics := none, current := none,
             created_at := none, started_at := some now, updated_at := some now }
    ∧ (emit_status rec jobId s total0 now).stateTtl = none
    ∧ (emit_progress rec jobId done total success failed retried skipped cur now).state =
      some { job_id := jobId, status := "queued", store_id := none, job_type := none,
             params := none, client_session := none, job_token := none,
             progress := some { done := done, total := total,
                                percent := emitProgressPercent done total },
             metrics := some { success := success, failed := failed,
                               retried := retried, skipped := skipped },
             current := some (cur.getD "{}"), created_at := none,
             started_at := some now, updated_at := some now }
    ∧ (emit_progress rec jobId done total success failed retried skipped cur now).stateTtl
        = none := by
  refine ⟨?_, ?_, ?_, ?_⟩ <;>
    simp [emit_status, emit_progress, update_state, updateStateHash, xadd, h, ht]

theorem update_state_resurrects_witness :
    (emit_status emptyJobRecord "job-x" "running" none "t0").state =
      some { job_id := "job-x", status := "running", store_id := none, job_type := none,
             params := none, client_session := none, job_token := none,
             progress := none, metrics := none, current := none,
             created_at := none, started_at := some "t0", updated_at := some "t0" } :=
  (update_state_resurrects emptyJobRecord "job-x" "running" "t0" none 0 0 0 0 0 0 none
    rfl rfl).1


/-- Claim C6 counterexample: the percent actually recorded is the truncated
IEEE-754 double evaluation of `done / total * 100`, which at
`done = 29, total = 100` gives `28`, not `floor(29 / 100 * 100) = 29`. -/
theorem emit_progress_percent_cex :
    emitProgressPercent 29 100 = 28
    ∧ specPercentFloor 29 100 = 29
    ∧ (emit_progress emptyJobRecord "job-1" 29 100 0 0 0 0 none "t0").events =
        [{ offset := 1,
           data := EventData.progress 29 100 28 0 0 0 0 "{}" }]
    ∧ ¬ emitProgressPercent 29 100 = specPercentFloor 29 100 := by decide

/-- Claim C6 (amended): `emit_progress` records in the event and merges into
the state projection the percent `int((done / total * 100))` computed in
binary64 floating point, with `total = 0` giving `0` (no division fault) and
`done = 50, total = 200` giving `25`; the result can be one below the exact
`floor(done / total * 100)`, e.g. `28` instead of `29` at
`done = 29, total = 100`. -/
theorem emit_progress_percent_double (rec : JobRecord) (jobId : String)
    (done total success failed retried skipped : Nat) (cur : Option String)
    (now : String) :
    (emit_progress rec jobId done total success failed retried skipped cur now).events =
      rec.events ++
        [{ offset := rec.nextOffset,
           data := EventData.progress done total (emitProgressPercent done total)
             success failed retried skipped (cur.getD "{}") }]
    ∧ ((emit_progress rec jobId done total success failed retried skipped cur now).state.bind
          JobState.progress) =
        some { done := done, total := total, percent := emitProgressPercent done total }
    ∧ (∀ d : Nat, emitProgressPercent d 0 = 0)
    ∧ emitProgressPercent 50 200 = 25
    ∧ emitProgressPercent 29 100 = 28 := by
  refine ⟨rfl, ?_, fun d => rfl, by decide, by decide⟩
  cases hst : rec.state <;>
    simp [emit_progress, update_state, updateStateHash, xadd, hst]

/-- The C9 scenario: `create_job` → `emit_status("running", total=10)` →
`emit_progress(done=10, total=10, success=9, failed=1)` → `emit_status("done")`. -/
def c9record : JobRecord :=
  runOps "job-1"
    [JobOp.createJob "store-1" "feed-generation" "{}" "t0" "job-1",
     JobOp.emitStatus "running" (some 10) "t1",
     JobOp.emitProgress 10 10 9 1 0 0 none "t2",
     JobOp.emitStatus "done" none "t3"]

/-- The snapshot dict served to a streamer connecting after the C9 scenario. -/
def c9snapshot : List (String × JVal) :=
  match get_job_state c9record with
  | some st => snapshotData st
  | none => []

/-- Claim C9 counterexample: the streamer connecting after the scenario gets
`connected`, then a `snapshot` frame, then the first heartbeat — but the
snapshot dict has only the keys `status` / `done` / `total`: it carries no
`percent` field at all, so it does not show `percent = 100`. -/
theorem snapshot_lacks_percent_cex :
    connectFrames "job-1" c9record none =
      [Frame.connected "job-1", Frame.snapshot c9snapshot, Frame.heartbeat "ping"]
    ∧ c9snapshot.lookup "percent" = none
    ∧ ¬ c9snapshot.lookup "percent" = some (JVal.int 100) := by decide

/-- Claim C9 (amended): after the scenario a connecting streamer receives a
`connected` frame, then a `snapshot` frame showing `status = "done"`,
`done = 10`, `total = 10` (the state projection's percent being `100`, though
the snapshot itself carries no percent field), with no further data frames
before the first heartbeat. -/
theorem snapshot_frames_after_scenario :
    connectFrames "job-1" c9record none =
      [Frame.connected "job-1",
       Frame.snapshot
         [("status", JVal.str "done"), ("done", JVal.int 10), ("total", JVal.int 10)],
       Frame.heartbeat "ping"]
    ∧ (get_job_state c9record).map JobState.status = some "done"
    ∧ ((get_job_state c9record).bind JobState.progress).map Progress.percent =
        some 100 := by decide

/-- Claim C2: the stream (`_stream_events_impl`) and download
(`download_patch_zip`) token gates fail closed — an empty token is Forbidden
with `missing_job_token`, a token rejected by `verify_job_token` is Forbidden
with `invalid_job_token`, and a token matching the stored `job_token` passes
regardless of the optional store key being absent or invalid. -/
theorem token_gate_fails_closed (st : JobState) (sid tok : String)
    (sk : Option String) (skv : Bool) :
    (st.store_id = some sid →
      streamEventsGate (some st) sid "" sk skv = .forbidden "missing_job_token"
      ∧ downloadPatchZipGate (some st) sid "" sk skv = .forbidden "missing_job_token")
    ∧ (st.store_id = some sid → tok ≠ "" → verify_job_token (some st) tok = false →
      streamEventsGate (some st) sid tok sk skv = .forbidden "invalid_job_token"
      ∧ downloadPatchZipGate (some st) sid tok sk skv = .forbidden "invalid_job_token")
    ∧ (st.store_id = some sid → tok ≠ "" → st.job_token = some tok →
      streamEventsGate (some st) sid tok sk skv = .allowed
      ∧ downloadPatchZipGate (some st) sid tok sk skv = .allowed) := by
  refine ⟨?_, ?_, ?_⟩
  · intro h1
    constructor <;> simp [streamEventsGate, downloadPatchZipGate, h1]
  · intro h1 h2 h3
    constructor <;> simp [streamEventsGate, downloadPatchZipGate, h1, h2, h3]
  · intro h1 h2 h3
    constructor <;>
      simp [streamEventsGate, downloadPatchZipGate, verify_job_token, h1, h2, h3]

/-- A job state holding a token, for the C2 witness. -/
def c2wState : JobState :=
  { job_id := "job-2", status := "running", store_id := some "store-2",
    job_type := some "desc-builder-generate", params := some "{}",
    client_session := none, job_token := some "tok-abc", progress := none,
    metrics := none, current := none, created_at := some "t0",
    started_at := none, updated_at := some "t0" }

theorem token_gate_fails_closed_witness :
    streamEventsGate (some c2wState) "store-2" "tok-abc" (some "bad-key") false =
      GateResult.allowed
    ∧ downloadPatchZipGate (some c2wState) "store-2" "tok-abc" (some "bad-key") false =
      GateResult.allowed :=
  (token_gate_fails_closed c2wState "store-2" "tok-abc" (some "bad-key") false).2.2
    (by decide) (by decide) (by decide)


lemma counterValue_acquireAfter {limit : Nat} {detail : String} {c : CounterState}
    (h : counterValue c ≤ (limit : Int)) :
    counterValue (acquireAfter (acquireSlot limit detail c)) ≤ (limit : Int) := by
  unfold acquireSlot acquireAfter
  by_cases h1 : (limit : Int) ≤ counterValue c
  · simp only [h1, if_true]; exact h
  · simp only [h1, if_false]
    by_cases h2 : (limit : Int) < counterValue c + 1
    · simp only [h2, if_true]
      simp only [counterValue, Option.getD] at h1 h2 ⊢
      omega
    · simp only [h2, if_false]
      simp only [counterValue, Option.getD] at h1 h2 ⊢
      omega

lemma counterValue_releaseSlot {limit : Nat} {c : CounterState}
    (h : counterValue c ≤ (limit : Int)) :
    counterValue (releaseSlot c) ≤ (limit : Int) := by
  unfold releaseSlot
  cases hc : c.count with
  | none => exact h
  | some n =>
    by_cases hp : (0 : Int) < n
    · simp only [hp, if_true]
      simp only [counterValue, hc, Option.getD] at h ⊢
      omega
    · simp only [hp, if_false]
      exact h

lemma counterValue_runSlots (limit : Nat) (detail : String) (ops : List SlotOp) :
    ∀ c : CounterState, counterValue c ≤ (limit : Int) →
      counterValue (runSlots limit detail c ops) ≤ (limit : Int) := by
  induction ops with
  | nil => intro c h; exact h
  | cons op rest ih =>
    intro c h
    cases op with
    | acquire => exact ih _ (counterValue_acquireAfter h)
    | release => exact ih _ (counterValue_releaseSlot h)

/-- Claim C7: with the counter at (or beyond) the ceiling, `acquire` raises
429 with the configured ceiling in the message and leaves the counter
untouched; the counter visible after any sequence of completed acquires and
releases never exceeds the ceiling (3 for uploads, 2 for jobs); `release`
decrements a positive counter by exactly one and leaves a zero or absent
counter alone. -/
theorem rate_limiter_ceiling (c : CounterState) (n : Int) (ops : List SlotOp)
    (limit : Nat) (detail : String) :
    ((MAX_CONCURRENT_UPLOADS : Int) ≤ counterValue c →
        acquire_upload_slot c = .rateLimited uploadLimitDetail c)
    ∧ ((MAX_CONCURRENT_JOBS : Int) ≤ counterValue c →
        acquire_job_slot c = .rateLimited jobLimitDetail c)
    ∧ uploadLimitDetail =
        "Maximum " ++ toString MAX_CONCURRENT_UPLOADS ++
          " concurrent uploads per store. Please wait for existing uploads to complete."
    ∧ jobLimitDetail =
        "Maximum " ++ toString MAX_CONCURRENT_JOBS ++
          " concurrent generation jobs per store. Please wait for existing jobs to complete."
    ∧ counterValue (runSlots limit detail emptyCounter ops) ≤ (limit : Int)
    ∧ (c.count = some n → 0 < n →
        releaseSlot c = { count := some (n - 1), ttl := c.ttl })
    ∧ (c.count = some n → n ≤ 0 → releaseSlot c = c)
    ∧ (c.count = none → releaseSlot c = c) := by
  refine ⟨?_, ?_, rfl, rfl, ?_, ?_, ?_, ?_⟩
  · intro h
    unfold acquire_upload_slot acquireSlot
    simp only [h, if_true]
  · intro h
    unfold acquire_job_slot acquireSlot
    simp only [h, if_true]
  · exact counterValue_runSlots limit detail ops emptyCounter (by simp [counterValue, emptyCounter])
  · intro hc hp
    unfold releaseSlot
    simp [hc, hp]
  · intro hc hp
    unfold releaseSlot
    simp [hc, Int.not_lt.mpr hp]
  · intro hc
    unfold releaseSlot
    simp [hc]

theorem rate_limiter_ceiling_witness :
    acquire_upload_slot { count := some 3, ttl := some 86400 } =
      AcquireOutcome.rateLimited uploadLimitDetail { count := some 3, ttl := some 86400 }
    ∧ releaseSlot { count := some 2, ttl := some 86400 } =
      { count := some 1, ttl := some 86400 } := by
  have h := rate_limiter_ceiling { count := some 3, ttl := some 86400 } 2 [] 3 ""
  have h2 := rate_limiter_ceiling { count := some 2, ttl := some 86400 } 2 [] 3 ""
  refine ⟨h.1 (by decide), ?_⟩
  have := h2.2.2.2.2.2.1 rfl (by decide)
  simpa using this

/-- Operations exercising the event log for the C3 witness. -/
def c3wOps : List JobOp :=
  [JobOp.createJob "store-1" "update-prices" "{}" "t0" "job-1",
   JobOp.emitStatus "running" (some 3) "t1",
   JobOp.emitLog "INFO" "starting" none,
   JobOp.emitProgress 1 3 1 0 0 0 none "t2",
   JobOp.emitStatus "done" none "t3"]

/-- Claim C3: after any sequence of core operations the event stream's ids are
strictly increasing and all below the next auto id (so every append gets a
strictly larger, never-reused id, appended at the end), and tailing from
offset `X` with the batched `XREAD` loop yields exactly the entries with id
greater than `X`, in append order — nothing with id `≤ X`, nothing skipped,
nothing reordered (the result is a sublist of the log). -/
theorem event_log_monotone_tail (jobId : String) (ops : List JobOp)
    (rec : JobRecord) (hrec : rec = runOps jobId ops) (X fuel : Nat)
    (hfuel : (rec.events.filter (fun e => X < e.offset)).length ≤ fuel) :
    OffsetsSorted rec.events
    ∧ (∀ e ∈ rec.events, e.offset < rec.nextOffset)
    ∧ (∀ d : EventData,
        (xadd rec d).events = rec.events ++ [{ offset := rec.nextOffset, data := d }])
    ∧ xreadDrain fuel rec.events X = rec.events.filter (fun e => X < e.offset)
    ∧ (∀ e ∈ xreadDrain fuel rec.events X, X < e.offset)
    ∧ (xreadDrain fuel rec.events X).Sublist rec.events := by
  subst hrec
  obtain ⟨hs, hlt⟩ := recordInv_runOps jobId ops
  have hdrain := xreadDrain_eq_filter _ hs fuel X hfuel
  refine ⟨hs, hlt, fun d => rfl, hdrain, ?_, ?_⟩
  · intro e he
    rw [hdrain] at he
    simpa using List.of_mem_filter he
  · rw [hdrain]
    exact List.filter_sublist _

theorem event_log_monotone_tail_witness :
    xreadDrain 4 (runOps "job-1" c3wOps).events 1 =
      (runOps "job-1" c3wOps).events.filter (fun e => 1 < e.offset) :=
  (event_log_monotone_tail "job-1" c3wOps _ rfl 1 4 (by decide)).2.2.2.1


/-- Whether one invocation outcome makes the loop retry: a `(False, …)` return
whose status is retryable under the Python truthiness rules, or a raised
exception. -/
def isRetryableFailure (retryOn : List Int) : CallResult → Bool
  | .ret success _ sc => !success && !(nonRetryable retryOn sc)
  | .exn _ => true

/-- The `(success, result, status_code)` triple an invocation outcome turns
into when it is the one returned (exceptions become `(False, str(e), None)`). -/
def failureTriple : CallResult → Bool × String × Option Int
  | .ret s r sc => (s, r, sc)
  | .exn m => (false, m, none)

lemma geom_cons (delay f : ℚ) (n : Nat) :
    delay :: (List.range n).map (fun i => delay * f * f ^ i) =
      (List.range (n + 1)).map (fun i => delay * f ^ i) := by
  rw [List.range_succ_eq_map, List.map_cons, List.map_map]
  have hfun : ((fun i => delay * f ^ i) ∘ Nat.succ) =
      fun i => delay * f * f ^ i := by
    funext i
    simp only [Function.comp_apply, pow_succ]
    ring
  rw [hfun]
  simp

lemma retryLoop_success (func : Nat → CallResult) (retryOn : List Int) (f : ℚ)
    (remaining attempt : Nat) (delay : ℚ) (sleeps : List ℚ)
    (r : String) (sc : Option Int) (h : func attempt = .ret true r sc) :
    retryLoop func retryOn f remaining attempt delay sleeps = ⟨true, r, sc, sleeps⟩ := by
  cases remaining with
  | zero => rw [retryLoop.eq_1, h]
  | succ m => rw [retryLoop.eq_2, h]

lemma retryLoop_step_retryable (func : Nat → CallResult) (retryOn : List Int)
    (f : ℚ) (remaining attempt : Nat) (delay : ℚ) (sleeps : List ℚ)
    (h : isRetryableFailure retryOn (func attempt) = true) :
    retryLoop func retryOn f (remaining + 1) attempt delay sleeps =
      retryLoop func retryOn f remaining (attempt + 1) (delay * f) (sleeps ++ [delay]) := by
  rw [retryLoop.eq_2]
  cases hf : func attempt with
  | ret s r sc =>
    rw [hf] at h
    cases s with
    | true => simp [isRetryableFailure] at h
    | false =>
      have hnr : nonRetryable retryOn sc = false := by
        simpa [isRetryableFailure] using h
      simp [hnr]
  | exn m => rfl

lemma retryLoop_all_retryable (func : Nat → CallResult) (retryOn : List Int)
    (f : ℚ) :
    ∀ (remaining attempt : Nat) (delay : ℚ) (sleeps : List ℚ),
      (∀ i, attempt ≤ i → i ≤ attempt + remaining →
        isRetryableFailure retryOn (func i) = true) →
      retryLoop func retryOn f remaining attempt delay sleeps =
        ⟨false, (failureTriple (func (attempt + remaining))).2.1,
         (failureTriple (func (attempt + remaining))).2.2,
         sleeps ++ (List.range remaining).map (fun i => delay * f ^ i)⟩ := by
  intro remaining
  induction remaining with
  | zero =>
    intro attempt delay sleeps hall
    have h0 := hall attempt le_rfl (by omega)
    rw [retryLoop.eq_1]
    cases hf : func attempt with
    | ret s r sc =>
      rw [hf] at h0
      cases s with
      | true => simp [isRetryableFailure] at h0
      | false => simp [failureTriple, hf]
    | exn m => simp [failureTriple, hf]
  | succ remaining ih =>
    intro attempt delay sleeps hall
    rw [retryLoop_step_retryable func retryOn f remaining attempt delay sleeps
      (hall attempt le_rfl (by omega))]
    rw [ih (attempt + 1) (delay * f) (sleeps ++ [delay])
      (fun i h1 h2 => hall i (by omega) (by omega))]
    have harith : attempt + 1 + remaining = attempt + (remaining + 1) := by omega
    rw [harith]
    rw [List.append_assoc, List.singleton_append, geom_cons]

lemma retryLoop_sleeps_geom (func : Nat → CallResult) (retryOn : List Int)
    (f : ℚ) :
    ∀ (remaining attempt : Nat) (delay : ℚ) (sleeps : List ℚ), ∃ k : Nat,
      (retryLoop func retryOn f remaining attempt delay sleeps).sleeps =
        sleeps ++ (List.range k).map (fun i => delay * f ^ i) := by
  intro remaining
  induction remaining with
  | zero =>
    intro attempt delay sleeps
    refine ⟨0, ?_⟩
    rw [retryLoop.eq_1]
    cases func attempt with
    | ret s r sc => cases s <;> simp
    | exn m => simp
  | succ remaining ih =>
    intro attempt delay sleeps
    rw [retryLoop.eq_2]
    cases func attempt with
    | ret s r sc =>
      cases s with
      | true => exact ⟨0, by simp⟩
      | false =>
        by_cases hnr : nonRetryable retryOn sc = true
        · exact ⟨0, by simp [hnr]⟩
        · have hnr2 : nonRetryable retryOn sc = false := by simpa using hnr
          obtain ⟨k, hk⟩ := ih (attempt + 1) (delay * f) (sleeps ++ [delay])
          refine ⟨k + 1, ?_⟩
          simp only [hnr2, Bool.false_eq_true, if_false]
          rw [hk, List.append_assoc, List.singleton_append, geom_cons]
    | exn m =>
      obtain ⟨k, hk⟩ := ih (attempt + 1) (delay * f) (sleeps ++ [delay])
      refine ⟨k + 1, ?_⟩
      rw [hk, List.append_assoc, List.singleton_append, geom_cons]

/-- Claim C8: the retry executor returns success when the first two attempts
fail retryably and the third succeeds (given `max_retries ≥ 2`), having slept
`initial_delay` then `initial_delay * backoff_factor`; a non-retryable failure
on the first attempt is returned immediately with zero sleeps; when every
attempt fails retryably the last failure is returned unmodified after
`max_retries` sleeps; and in every run the k-th sleep (1-based) equals
`initial_delay * backoff_factor ^ (k - 1)`. -/
theorem retry_with_backoff_behaviour (func : Nat → CallResult) (mr : Nat)
    (d f : ℚ) (retryOn : List Int) (r0 r2 : String) (sc0 sc2 : Option Int) :
    (2 ≤ mr →
      isRetryableFailure retryOn (func 0) = true →
      isRetryableFailure retryOn (func 1) = true →
      func 2 = .ret true r2 sc2 →
      retry_with_backoff_async func mr d f retryOn = ⟨true, r2, sc2, [d, d * f]⟩)
    ∧ (func 0 = .ret false r0 sc0 → nonRetryable retryOn sc0 = true →
        retry_with_backoff_async func mr d f retryOn = ⟨false, r0, sc0, []⟩)
    ∧ ((∀ i, i ≤ mr → isRetryableFailure retryOn (func i) = true) →
        retry_with_backoff_async func mr d f retryOn =
          ⟨false, (failureTriple (func mr)).2.1, (failureTriple (func mr)).2.2,
           (List.range mr).map (fun i => d * f ^ i)⟩)
    ∧ (∃ k : Nat, (retry_with_backoff_async func mr d f retryOn).sleeps =
        (List.range k).map (fun i => d * f ^ i)) := by
  refine ⟨?_, ?_, ?_, ?_⟩
  · intro hmr h0 h1 h2
    obtain ⟨m, rfl⟩ : ∃ m, mr = m + 2 := ⟨mr - 2, by omega⟩
    unfold retry_with_backoff_async
    rw [show m + 2 = (m + 1) + 1 from rfl]
    rw [retryLoop_step_retryable func retryOn f (m + 1) 0 d [] h0]
    simp only [List.nil_append]
    rw [retryLoop_step_retryable func retryOn f m 1 (d * f) [d] h1]
    simp only [List.singleton_append]
    rw [retryLoop_success func retryOn f m 2 (d * f * f) [d, d * f] r2 sc2 h2]
  · intro h0 hnr
    unfold retry_with_backoff_async
    cases mr with
    | zero => rw [retryLoop.eq_1, h0]
    | succ m => rw [retryLoop.eq_2, h0]; simp [hnr]
  · intro hall
    unfold retry_with_backoff_async
    rw [retryLoop_all_retryable func retryOn f mr 0 d []
      (fun i h1 h2 => hall i (by omega))]
    simp
  · obtain ⟨k, hk⟩ := retryLoop_sleeps_geom func retryOn f mr 0 d []
    exact ⟨k, by simpa using hk⟩

/-- Invocation outcomes for the C8 witness: a retryable 500, then an
exception, then success. -/
def c8wFunc : Nat → CallResult
  | 0 => .ret false "gateway error" (some 500)
  | 1 => .exn "connection reset"
  | _ => .ret true "ok" (some 200)

theorem retry_with_backoff_behaviour_witness :
    retry_with_backoff_async c8wFunc 4 2 3 defaultRetryOnStatus =
      ⟨true, "ok", some 200, [2, 6]⟩ := by
  have h := (retry_with_backoff_behaviour c8wFunc 4 2 3 defaultRetryOnStatus
    "gateway error" "ok" (some 500) (some 200)).1
    (by decide) (by decide) (by decide) rfl
  rw [h]
  norm_num

end WooBE
